import Mathlib

set_option maxRecDepth 8192

/-!
Verification of the Avalanche-style consensus core (vote.go, avalanche.go,
and the legacy vote record found in the unnamed source file).

The Go code is shallowly embedded: machine integers become `Nat` with
explicit `% 2^w` wraparound at every point where the Go types truncate
(uint8: `% 256`, uint16: `% 65536`, uint32: `% 4294967296`), and the
popcount loop `for ; i > 0; i &= (i - 1)` is translated with an explicit
fuel argument (the loop variable strictly decreases, so `i` itself bounds
the iteration count).
-/

namespace Avalanche

/-- Loop body of Go `countBits8` / `countBits`:
`for ; i > 0; i &= (i - 1) { count++ }`.
`fuel` bounds the number of iterations; since `i &&& (i - 1) < i` for
`i > 0`, starting with `fuel = i` never exhausts the fuel. -/
def countLoop : Nat → Nat → Nat
  | 0, _ => 0
  | fuel + 1, i => if i = 0 then 0 else countLoop fuel (i &&& (i - 1)) + 1

/-- Go `countBits8(i uint8) int` from vote.go. -/
def countBits8 (i : Nat) : Nat := countLoop i i

/-- Go `boolToUint8` from vote.go. -/
def boolToUint8 (b : Bool) : Nat := if b then 1 else 0

/-- Go `boolToUint16` from vote.go (`uint16(boolToUint8(b))`). -/
def boolToUint16 (b : Bool) : Nat := boolToUint8 b

/-- Go constant `AvalancheFinalizationScore = 128` from avalanche.go. -/
def AvalancheFinalizationScore : Nat := 128

/-- Go constant `AvalancheMaxElementPoll = 4096` from avalanche.go. -/
def AvalancheMaxElementPoll : Nat := 4096

/-- Go `VoteRecord` struct from vote.go: `votes uint8`, `consider uint8`,
`confidence uint16`.  All fields are `Nat`s kept below their width by the
operations. -/
structure VoteRecord where
  votes : Nat
  consider : Nat
  confidence : Nat
deriving DecidableEq

/-- Go `NewVoteRecord(accepted bool)` from vote.go: `votes = 0xaa`,
`consider` left at its zero value, `confidence = boolToUint16(accepted)`. -/
def NewVoteRecord (accepted : Bool) : VoteRecord :=
  ⟨0xaa, 0, boolToUint16 accepted⟩

/-- Go `isAccepted`: `(vr.confidence & 0x01) == 1`. -/
def isAccepted (vr : VoteRecord) : Bool := vr.confidence &&& 0x01 == 1

/-- Go `getConfidence`: `vr.confidence >> 1`. -/
def getConfidence (vr : VoteRecord) : Nat := vr.confidence >>> 1

/-- Go `hasFinalized`: `vr.getConfidence() >= AvalancheFinalizationScore`. -/
def hasFinalized (vr : VoteRecord) : Bool :=
  decide (AvalancheFinalizationScore ≤ getConfidence vr)

/-- Line 58 of vote.go: `vr.votes = (vr.votes << 1) | boolToUint8(err == 0)`,
with the uint8 truncation made explicit, and uint32 `err` reduced mod 2^32. -/
def shiftVotes (votes err : Nat) : Nat :=
  ((votes <<< 1) ||| boolToUint8 (err % 4294967296 == 0)) % 256

/-- Line 59 of vote.go:
`vr.consider = (vr.consider << 1) | boolToUint8(int32(err) >= 0)`.
A uint32 value is non-negative as int32 exactly when it is below 2^31. -/
def shiftConsider (consider err : Nat) : Nat :=
  ((consider <<< 1) ||| boolToUint8 (decide (err % 4294967296 < 2147483648))) % 256

/-- Go uint8 expression `-v - 1` (two's complement negation then minus one,
each wrapping mod 256), as used on line 64 of vote.go. -/
def negSub1U8 (v : Nat) : Nat := ((256 - v % 256) % 256 + 255) % 256

/-- Line 61 of vote.go: `yes := countBits8(vr.votes&vr.consider&0xff) > 6`,
evaluated on the freshly shifted windows. -/
def roundYes (vr : VoteRecord) (err : Nat) : Bool :=
  decide (6 < countBits8 (shiftVotes vr.votes err &&& shiftConsider vr.consider err &&& 0xff))

/-- Line 64 of vote.go: the conclusive-no test
`countBits8((-vr.votes-1)&vr.consider&0xff) > 6` on the shifted windows
(the code guards the inconclusive branch with its negation `<= 6`). -/
def roundNo (vr : VoteRecord) (err : Nat) : Bool :=
  decide (6 < countBits8 (negSub1U8 (shiftVotes vr.votes err) &&& shiftConsider vr.consider err &&& 0xff))

/-- Go `regsiterVote(err uint32) bool` from vote.go, returning the result
together with the updated record.  Mirrors the source line by line: shift
both windows, return `false` on an inconclusive round, add 2 to
`confidence` (uint16, hence `% 65536`) and compare the streak to
`AvalancheFinalizationScore` when the verdict agrees with the current
polarity, otherwise reset `confidence` to the new polarity bit and
return `true`. -/
def regsiterVote (vr : VoteRecord) (err : Nat) : Bool × VoteRecord :=
  if !(roundYes vr err) && !(roundNo vr err) then
    (false, ⟨shiftVotes vr.votes err, shiftConsider vr.consider err, vr.confidence⟩)
  else if isAccepted vr == roundYes vr err then
    (decide (getConfidence ⟨shiftVotes vr.votes err, shiftConsider vr.consider err,
        (vr.confidence + 2) % 65536⟩ = AvalancheFinalizationScore),
     ⟨shiftVotes vr.votes err, shiftConsider vr.consider err, (vr.confidence + 2) % 65536⟩)
  else
    (true, ⟨shiftVotes vr.votes err, shiftConsider vr.consider err,
        boolToUint16 (roundYes vr err)⟩)

/-- Go `Status` constants from avalanche.go. -/
inductive Status where
  | StatusInvalid
  | StatusRejected
  | StatusAccepted
  | StatusFinalized
deriving DecidableEq

/-- Go `status()` from vote.go: the four-way switch on
(`hasFinalized`, `isAccepted`); the zero value of the named return is
`StatusInvalid`, which coincides with the last case. -/
def status (vr : VoteRecord) : Status :=
  if !(hasFinalized vr) && isAccepted vr then Status.StatusAccepted
  else if !(hasFinalized vr) && !(isAccepted vr) then Status.StatusRejected
  else if hasFinalized vr && isAccepted vr then Status.StatusFinalized
  else Status.StatusInvalid

/-- Sequencing helper: apply `regsiterVote` to each error code in turn,
returning the final record and the list of per-call results. -/
def runVotes (vr : VoteRecord) (errs : List Nat) : VoteRecord × List Bool :=
  match errs with
  | [] => (vr, [])
  | e :: rest =>
    let step := regsiterVote vr e
    let next := runVotes step.2 rest
    (next.1, step.1 :: next.2)

/-- The alternating error-code sequence of scenario S3: `err = 0` on even
rounds, `err = -1` (uint32 4294967295) on odd rounds. -/
def altErr (i : Nat) : Nat := if i % 2 = 0 then 0 else 4294967295

/-- State of a fresh initially-accepted record after `n` alternating
`regsiterVote` calls. -/
def altState : Nat → VoteRecord
  | 0 => NewVoteRecord true
  | n + 1 => (regsiterVote (altState n) (altErr n)).2

/-- Specification-level popcount of the low eight bits, written
independently of the `countBits8` loop as a sum of the eight bits of
the window. -/
def popCount8 (n : Nat) : Nat :=
  (n.testBit 0).toNat + (n.testBit 1).toNat + (n.testBit 2).toNat + (n.testBit 3).toNat +
  (n.testBit 4).toNat + (n.testBit 5).toNat + (n.testBit 6).toNat + (n.testBit 7).toNat

/-- Legacy `VoteRecord` struct from the unnamed source file:
`votes uint16`, `confidence uint16`. -/
structure LegacyVoteRecord where
  votes : Nat
  confidence : Nat
deriving DecidableEq

namespace Legacy

/-- Legacy Go `countBits(i uint16) int`: the same clear-lowest-bit loop as
`countBits8`, fueled by its argument. -/
def countBits (i : Nat) : Nat := countLoop i i

/-- Legacy Go `NewVoteRecord()`: `votes = 0xaaaa`, zero confidence. -/
def NewVoteRecord : LegacyVoteRecord := ⟨0xaaaa, 0⟩

/-- Legacy Go `isAccepted`: `(vr.confidence & 0x01) == 1`. -/
def isAccepted (vr : LegacyVoteRecord) : Bool := vr.confidence &&& 0x01 == 1

/-- Legacy Go `getConfidence`: `vr.confidence >> 1`. -/
def getConfidence (vr : LegacyVoteRecord) : Nat := vr.confidence >>> 1

/-- Legacy Go `hasFinalized`: `getConfidence() >= AvalancheFinalizationScore`. -/
def hasFinalized (vr : LegacyVoteRecord) : Bool :=
  decide (AvalancheFinalizationScore ≤ getConfidence vr)

/-- Legacy window update `vr.votes = (vr.votes << 1) | voteInt` on uint16. -/
def shiftVotes (votes : Nat) (vote : Bool) : Nat :=
  ((votes <<< 1) ||| (if vote then 1 else 0)) % 65536

/-- Legacy Go `regsiterVote(vote bool) bool` from the unnamed source file,
returning the result with the updated record.  `bitCount` is taken over
the low byte of the shifted window; `yes` is `bitCount > 6`, `no` is
`bitCount < 2`; the agreeing branch returns `hasFinalized()` (a `>=`
comparison, unlike the current code's `==`). -/
def regsiterVote (vr : LegacyVoteRecord) (vote : Bool) : Bool × LegacyVoteRecord :=
  if !(decide (6 < countBits (shiftVotes vr.votes vote &&& 0xff)))
      && !(decide (countBits (shiftVotes vr.votes vote &&& 0xff) < 2)) then
    (false, ⟨shiftVotes vr.votes vote, vr.confidence⟩)
  else if isAccepted vr == decide (6 < countBits (shiftVotes vr.votes vote &&& 0xff)) then
    (hasFinalized ⟨shiftVotes vr.votes vote, (vr.confidence + 2) % 65536⟩,
     ⟨shiftVotes vr.votes vote, (vr.confidence + 2) % 65536⟩)
  else
    (true, ⟨shiftVotes vr.votes vote,
        boolToUint16 (decide (6 < countBits (shiftVotes vr.votes vote &&& 0xff)))⟩)

end Legacy

/-- Go `type Hash int` from avalanche.go. -/
abbrev Hash := Int

/-- Go `Block` struct from avalanche.go. -/
structure Block where
  hash : Hash
  work : Int
  valid : Bool
  isInActiveChain : Bool
deriving DecidableEq

/-- Go `Inv` struct from avalanche.go. -/
structure Inv where
  targetType : String
  targetHash : Hash
deriving DecidableEq

/-- Go `staticTestBlockMap` from avalanche.go: the two-entry literal map. -/
def staticTestBlockMap (h : Hash) : Option Block :=
  if h = 65 then some ⟨65, 99, true, true⟩
  else if h = 66 then some ⟨66, 100, true, false⟩
  else none

/-- Go `blockForHash` from avalanche.go.  The Go code panics with
"Block not found with hash" when the map lookup misses; the panic is
modelled as an `Except.error` carrying the panic message. -/
def blockForHash (h : Hash) : Except String Block :=
  match staticTestBlockMap h with
  | some b => Except.ok b
  | none => Except.error "Block not found with hash"

/-- Insertion step of the comparison sort, using the `blocksByWork.Less`
relation from avalanche.go (`a[i].work > a[j].work`, descending). -/
def insertByWork (b : Block) : List Block → List Block
  | [] => [b]
  | x :: xs => if x.work < b.work then b :: x :: xs else x :: insertByWork b xs

/-- Go `sort.Sort(blocks)` over `blocksByWork`: a comparison sort by
descending work. -/
def sortByWork : List Block → List Block
  | [] => []
  | b :: bs => insertByWork b (sortByWork bs)

/-- The lookup loop of `sortBlockInvsByWork`: resolve every inventory to a
block, propagating the panic of `blockForHash`. -/
def collectBlocks : List Inv → Except String (List Block)
  | [] => Except.ok []
  | inv :: rest =>
    match blockForHash inv.targetHash with
    | Except.error e => Except.error e
    | Except.ok b =>
      match collectBlocks rest with
      | Except.error e => Except.error e
      | Except.ok bs => Except.ok (b :: bs)

/-- Go `sortBlockInvsByWork` from avalanche.go: resolve each inventory hash
through `blockForHash`, sort the blocks by descending work, and rewrite the
inventory list in that order.  A `blockForHash` panic aborts the whole
operation. -/
def sortBlockInvsByWork (invs : List Inv) : Except String (List Inv) :=
  match collectBlocks invs with
  | Except.error e => Except.error e
  | Except.ok blocks =>
    Except.ok ((sortByWork blocks).map (fun b => ⟨"block", b.hash⟩))

/-! ## Helper lemmas -/

lemma and_255_eq_mod (x : Nat) : x &&& 255 = x % 256 := by
  have h := Nat.and_pow_two_sub_one_eq_mod x 8
  norm_num at h
  exact h

lemma and255_self (a b : Nat) (hb : b < 256) : a &&& b &&& 255 = a &&& b := by
  rw [and_255_eq_mod]
  exact Nat.mod_eq_of_lt (Nat.lt_of_le_of_lt Nat.and_le_right hb)

lemma and_lt256 (a b : Nat) (hb : b < 256) : a &&& b < 256 :=
  Nat.lt_of_le_of_lt Nat.and_le_right hb

lemma countBits8_eq_popCount8 : ∀ n < 256, countBits8 n = popCount8 n := by decide

lemma countBits8_le_eight : ∀ n < 256, countBits8 n ≤ 8 := by decide

lemma negSub1U8_eq : ∀ v < 256, negSub1U8 v = 255 - v := by decide

lemma countBits8_compl : ∀ v < 256, countBits8 (255 - v) = 8 - countBits8 v := by decide

lemma popCount8_and_le (a b : Nat) : popCount8 (a &&& b) ≤ popCount8 b := by
  have h : ∀ x y : Bool, (x && y).toNat ≤ y.toNat := by decide
  simp only [popCount8, Nat.testBit_and]
  exact Nat.add_le_add (Nat.add_le_add (Nat.add_le_add (Nat.add_le_add (Nat.add_le_add
    (Nat.add_le_add (Nat.add_le_add (h _ _) (h _ _)) (h _ _)) (h _ _)) (h _ _)) (h _ _))
    (h _ _)) (h _ _)

lemma countBits8_and_le (a b : Nat) (hb : b < 256) :
    countBits8 (a &&& b) ≤ countBits8 b := by
  rw [countBits8_eq_popCount8 _ (and_lt256 a b hb), countBits8_eq_popCount8 _ hb]
  exact popCount8_and_le a b

lemma boolToUint8_true {b : Bool} (h : b = true) : boolToUint8 b = 1 := by
  simp [boolToUint8, h]

lemma boolToUint8_false {b : Bool} (h : b = false) : boolToUint8 b = 0 := by
  simp [boolToUint8, h]

lemma two_mul_lor_bit (x b : Nat) (hb : b ≤ 1) : (2 * x) ||| b = 2 * x + b := by
  match b, hb with
  | 0, _ => simp
  | 1, _ =>
    have hm : ((2 * x) ||| 1) % 2 = 1 := by
      rw [Nat.or_mod_two_eq_one]
      omega
    have hd : ((2 * x) ||| 1) / 2 = x := by
      rw [Nat.or_div_two]
      simp only [show (1 : Nat) / 2 = 0 from rfl, Nat.or_zero]
      omega
    omega

lemma shiftLeft_one_lor_bit (x b : Nat) (hb : b ≤ 1) : (x <<< 1) ||| b = 2 * x + b := by
  rw [Nat.shiftLeft_eq, pow_one, Nat.mul_comm]
  exact two_mul_lor_bit x b hb

lemma shiftVotes_char (v e : Nat) (he : e < 4294967296) :
    shiftVotes v e = (2 * v + (if e = 0 then 1 else 0)) % 256 := by
  unfold shiftVotes
  rw [Nat.mod_eq_of_lt he]
  by_cases h : e = 0
  · rw [boolToUint8_true (by simpa using h), if_pos h, shiftLeft_one_lor_bit v 1 (by omega)]
  · rw [boolToUint8_false (by simpa using h), if_neg h, shiftLeft_one_lor_bit v 0 (by omega)]

lemma shiftConsider_char (c e : Nat) (he : e < 4294967296) :
    shiftConsider c e = (2 * c + (if e < 2147483648 then 1 else 0)) % 256 := by
  unfold shiftConsider
  rw [Nat.mod_eq_of_lt he]
  by_cases h : e < 2147483648
  · rw [boolToUint8_true (by simpa using h), if_pos h, shiftLeft_one_lor_bit c 1 (by omega)]
  · rw [boolToUint8_false (by simpa using h), if_neg h, shiftLeft_one_lor_bit c 0 (by omega)]

lemma shiftVotes_lt (v e : Nat) : shiftVotes v e < 256 := by
  unfold shiftVotes
  exact Nat.mod_lt _ (by omega)

lemma shiftConsider_lt (c e : Nat) : shiftConsider c e < 256 := by
  unfold shiftConsider
  exact Nat.mod_lt _ (by omega)

lemma negSub1U8_lt (v : Nat) : negSub1U8 v < 256 := by
  unfold negSub1U8
  exact Nat.mod_lt _ (by omega)

lemma countBits8_shift_one_le : ∀ c < 256, countBits8 (((c <<< 1) ||| 1) % 256) ≤ countBits8 c + 1 := by decide

lemma countBits8_shift_zero_le : ∀ c < 256, countBits8 (((c <<< 1) ||| 0) % 256) ≤ countBits8 c + 1 := by decide

lemma countBits8_shiftConsider_le (c e : Nat) (hc : c < 256) :
    countBits8 (shiftConsider c e) ≤ countBits8 c + 1 := by
  unfold shiftConsider boolToUint8
  by_cases h : e % 4294967296 < 2147483648
  · rw [if_pos (by simpa using h)]
    exact countBits8_shift_one_le c hc
  · rw [if_neg (by simpa using h)]
    exact countBits8_shift_zero_le c hc

/-- In every branch of `regsiterVote`, the new `votes` window is the
shifted one. -/
lemma regsiterVote_votes (vr : VoteRecord) (err : Nat) :
    (regsiterVote vr err).2.votes = shiftVotes vr.votes err := by
  unfold regsiterVote
  split
  · rfl
  · split
    · rfl
    · rfl

/-- In every branch of `regsiterVote`, the new `consider` window is the
shifted one. -/
lemma regsiterVote_consider (vr : VoteRecord) (err : Nat) :
    (regsiterVote vr err).2.consider = shiftConsider vr.consider err := by
  unfold regsiterVote
  split
  · rfl
  · split
    · rfl
    · rfl

/-- The inconclusive branch of `regsiterVote`. -/
lemma regsiterVote_inconclusive (vr : VoteRecord) (err : Nat)
    (h1 : roundYes vr err = false) (h2 : roundNo vr err = false) :
    regsiterVote vr err
      = (false, ⟨shiftVotes vr.votes err, shiftConsider vr.consider err, vr.confidence⟩) := by
  unfold regsiterVote
  rw [h1, h2]
  simp

/-- The agreeing conclusive branch of `regsiterVote`. -/
lemma regsiterVote_agree (vr : VoteRecord) (err : Nat)
    (hconc : roundYes vr err = true ∨ roundNo vr err = true)
    (hagree : isAccepted vr = roundYes vr err) :
    regsiterVote vr err
      = (decide (getConfidence ⟨shiftVotes vr.votes err, shiftConsider vr.consider err,
            (vr.confidence + 2) % 65536⟩ = AvalancheFinalizationScore),
         ⟨shiftVotes vr.votes err, shiftConsider vr.consider err,
            (vr.confidence + 2) % 65536⟩) := by
  have hc1 : (!(roundYes vr err) && !(roundNo vr err)) = false := by
    rcases hconc with h | h <;> simp [h]
  have hc2 : (isAccepted vr == roundYes vr err) = true := by
    rw [hagree]
    exact beq_self_eq_true _
  unfold regsiterVote
  rw [hc1, hc2]
  simp

/-- The disagreeing conclusive branch of `regsiterVote`. -/
lemma regsiterVote_disagree (vr : VoteRecord) (err : Nat)
    (hconc : roundYes vr err = true ∨ roundNo vr err = true)
    (hdis : isAccepted vr ≠ roundYes vr err) :
    regsiterVote vr err
      = (true, ⟨shiftVotes vr.votes err, shiftConsider vr.consider err,
          boolToUint16 (roundYes vr err)⟩) := by
  have hc1 : (!(roundYes vr err) && !(roundNo vr err)) = false := by
    rcases hconc with h | h <;> simp [h]
  have hc2 : (isAccepted vr == roundYes vr err) = false := by
    exact beq_eq_false_iff_ne.mpr hdis
  unfold regsiterVote
  rw [hc1, hc2]
  simp

/-- The code's conclusive-yes test, rewritten through the spec-level
`popCount8` on the shifted windows. -/
lemma roundYes_popCount (vr : VoteRecord) (err : Nat) :
    roundYes vr err
      = decide (6 < popCount8 (shiftVotes vr.votes err &&& shiftConsider vr.consider err)) := by
  have hC := shiftConsider_lt vr.consider err
  unfold roundYes
  rw [and255_self _ _ hC, countBits8_eq_popCount8 _ (and_lt256 _ _ hC)]

/-- The code's conclusive-no test, rewritten through the spec-level
`popCount8` and the bitwise complement `255 - votes` of the uint8 window. -/
lemma roundNo_popCount (vr : VoteRecord) (err : Nat) :
    roundNo vr err
      = decide (6 < popCount8 ((255 - shiftVotes vr.votes err) &&& shiftConsider vr.consider err)) := by
  have hC := shiftConsider_lt vr.consider err
  have hV := shiftVotes_lt vr.votes err
  unfold roundNo
  rw [negSub1U8_eq _ hV, and255_self _ _ hC, countBits8_eq_popCount8 _ (and_lt256 _ _ hC)]

/-! ## Claim theorems -/

/-- Running a concatenated vote sequence threads the intermediate state. -/
lemma runVotes_fst_append (vr : VoteRecord) (xs ys : List Nat) :
    (runVotes vr (xs ++ ys)).1 = (runVotes (runVotes vr xs).1 ys).1 := by
  induction xs generalizing vr with
  | nil => simp [runVotes]
  | cons e rest ih => simp [runVotes, ih]

lemma runVotes_state64 :
    (runVotes (NewVoteRecord true) (List.replicate 64 0)).1 = VoteRecord.mk 255 255 117 := by
  decide

lemma runVotes_state128 :
    (runVotes (NewVoteRecord true) (List.replicate 128 0)).1 = VoteRecord.mk 255 255 245 := by
  have hsplit : List.replicate 128 (0 : Nat) = List.replicate 64 0 ++ List.replicate 64 0 := by
    rw [← List.replicate_add]
  rw [hsplit, runVotes_fst_append, runVotes_state64]
  decide

lemma runVotes_state133 :
    (runVotes (NewVoteRecord true) (List.replicate 133 0)).1 = VoteRecord.mk 255 255 255 := by
  have hsplit : List.replicate 133 (0 : Nat) = List.replicate 128 0 ++ List.replicate 5 0 := by
    rw [← List.replicate_add]
  rw [hsplit, runVotes_fst_append, runVotes_state128]
  decide

lemma runVotes_state134 :
    (runVotes (NewVoteRecord true) (List.replicate 134 0)).1 = VoteRecord.mk 255 255 257 := by
  have hsplit : List.replicate 134 (0 : Nat) = List.replicate 133 0 ++ List.replicate 1 0 := by
    rw [← List.replicate_add]
  rw [hsplit, runVotes_fst_append, runVotes_state133]
  decide

/-- C3 counterexample: starting from `NewVoteRecord(true)`, 128 successive
`regsiterVote(0)` calls do NOT finalize the record: the first six rounds
are inconclusive (the `consider` window holds at most six live bits), so
after 128 calls the streak is only 122 and the status is still
`StatusAccepted`, not `StatusFinalized`. -/
theorem C3_cex_128_calls_not_finalized :
    hasFinalized (runVotes (NewVoteRecord true) (List.replicate 128 0)).1 = false
    ∧ status (runVotes (NewVoteRecord true) (List.replicate 128 0)).1 = Status.StatusAccepted
    ∧ getConfidence (runVotes (NewVoteRecord true) (List.replicate 128 0)).1 = 122 := by
  rw [runVotes_state128]
  refine ⟨by decide, by decide, by decide⟩

/-- C3 amended: starting from `NewVoteRecord(true)`, the record finalizes
on the 134th `regsiterVote(0)` call (128 agreeing conclusive rounds after
the six-round window warm-up): after 133 calls it has not finalized, the
134th call returns `true`, and afterwards `hasFinalized` holds with status
`StatusFinalized`. -/
theorem C3_amended_134_calls_finalize :
    hasFinalized (runVotes (NewVoteRecord true) (List.replicate 133 0)).1 = false
    ∧ (regsiterVote (runVotes (NewVoteRecord true) (List.replicate 133 0)).1 0).1 = true
    ∧ hasFinalized (runVotes (NewVoteRecord true) (List.replicate 134 0)).1 = true
    ∧ status (runVotes (NewVoteRecord true) (List.replicate 134 0)).1 = Status.StatusFinalized := by
  rw [runVotes_state133, runVotes_state134]
  refine ⟨by decide, by decide, by decide, by decide⟩

/-- C4 counterexample: starting from `NewVoteRecord(true)`, the polarity
flip caused by conclusive `err = 1` votes happens on the SEVENTH call, not
the eighth: the 7th call already returns `true` and leaves the record
rejected (so the first 7 calls do not leave the status unchanged), and
after the 8th call `confidence` is 2 (one round of agreement with the new
rejected polarity), not 0. -/
theorem C4_cex_flip_not_on_eighth :
    (runVotes (NewVoteRecord true) (List.replicate 7 1)).2.getLast? = some true
    ∧ status (runVotes (NewVoteRecord true) (List.replicate 7 1)).1 = Status.StatusRejected
    ∧ (runVotes (NewVoteRecord true) (List.replicate 8 1)).1.confidence = 2 := by
  decide

/-- C4 amended: starting from `NewVoteRecord(true)` and applying
`regsiterVote(1)` repeatedly, the first 6 calls return `false` and leave
the status `StatusAccepted`; on the 7th call the disagreement count
reaches 7, the polarity flips to rejected with `confidence = 0`, the call
returns `true`, and the status becomes `StatusRejected`. -/
theorem C4_amended_flip_on_seventh :
    (runVotes (NewVoteRecord true) (List.replicate 6 1)).2.all (fun r => !r) = true
    ∧ status (runVotes (NewVoteRecord true) (List.replicate 6 1)).1 = Status.StatusAccepted
    ∧ (runVotes (NewVoteRecord true) (List.replicate 7 1)).2.getLast? = some true
    ∧ (runVotes (NewVoteRecord true) (List.replicate 7 1)).1.confidence = 0
    ∧ isAccepted (runVotes (NewVoteRecord true) (List.replicate 7 1)).1 = false
    ∧ status (runVotes (NewVoteRecord true) (List.replicate 7 1)).1 = Status.StatusRejected := by
  decide

/-- C5 counterexample: a conclusive verdict IS possible in fewer than eight
rounds from the initial state: seven `regsiterVote(1)` calls from
`NewVoteRecord(true)` produce a call that returns `true` (the seventh),
and `confidence` does not stay at its initial value 1. -/
theorem C5_cex_seven_rounds_conclusive :
    (List.replicate 7 (1 : Nat)).length < 8
    ∧ (runVotes (NewVoteRecord true) (List.replicate 7 1)).2.contains true = true
    ∧ (runVotes (NewVoteRecord true) (List.replicate 7 1)).1.confidence ≠ 1 := by
  decide

/-- C10: finalization is not a terminal state of the `VoteRecord` itself.
The record `⟨votes = 0, consider = 0xFF, confidence = 257⟩` has finalized
(streak 128, accepted polarity), yet one further conclusive disagreeing
vote (`err = 1`, disagreement count 8 over a fully considered window)
returns `true`, resets `confidence` to 0, and `hasFinalized` becomes
false again. -/
theorem C10_finalized_not_terminal :
    hasFinalized (VoteRecord.mk 0 255 257) = true
    ∧ roundNo (VoteRecord.mk 0 255 257) 1 = true
    ∧ roundYes (VoteRecord.mk 0 255 257) 1 ≠ isAccepted (VoteRecord.mk 0 255 257)
    ∧ (regsiterVote (VoteRecord.mk 0 255 257) 1).1 = true
    ∧ (regsiterVote (VoteRecord.mk 0 255 257) 1).2.confidence = 0
    ∧ hasFinalized (regsiterVote (VoteRecord.mk 0 255 257) 1).2 = false := by
  decide

/-- C7: the block poll-ordering path is not total.  `blockForHash` panics
("Block not found with hash") on any hash outside the two-entry static
test map, so `sortBlockInvsByWork` aborts on the inventory `{block, 42}`
instead of returning a result: the code contradicts the spec's "no fatal
errors, never panics" contract. -/
theorem C7_sort_path_panics_on_unknown_hash :
    sortBlockInvsByWork [Inv.mk "block" 42] = Except.error "Block not found with hash"
    ∧ blockForHash 42 = Except.error "Block not found with hash"
    ∧ sortBlockInvsByWork [Inv.mk "block" 66, Inv.mk "block" 65]
        = Except.ok [Inv.mk "block" 66, Inv.mk "block" 65] := by
  constructor
  · rfl
  · constructor
    · rfl
    · rfl

/-- C2 counterexample: from the reachable state
`⟨votes = 0, consider = 0xFF, confidence = 65534⟩` (streak 32767, rejected
polarity), the conclusive agreeing vote `err = 1` does not advance the
streak by 1: the uint16 `confidence += 2` wraps around to 0, so the streak
collapses from 32767 to 0. -/
theorem C2_cex_uint16_wraparound :
    (roundYes (VoteRecord.mk 0 255 65534) 1 = true ∨ roundNo (VoteRecord.mk 0 255 65534) 1 = true)
    ∧ roundYes (VoteRecord.mk 0 255 65534) 1 = isAccepted (VoteRecord.mk 0 255 65534)
    ∧ getConfidence (regsiterVote (VoteRecord.mk 0 255 65534) 1).2
        ≠ getConfidence (VoteRecord.mk 0 255 65534) + 1
    ∧ getConfidence (regsiterVote (VoteRecord.mk 0 255 65534) 1).2
        < getConfidence (VoteRecord.mk 0 255 65534) := by
  refine ⟨Or.inr (by decide), by decide, by decide, by decide⟩

/-- C1: for every representable `VoteRecord` state and every 32-bit error
code, `regsiterVote(err)` shifts `votes` left one bit ORing in 1 iff
`err == 0`, shifts `consider` left one bit ORing in 1 iff `err` is
non-negative as a signed 32-bit value (`err < 2^31`), and the round is
inconclusive — the call returns `false` with `confidence` identical to
its pre-call value, the windows still shifted — exactly when neither
`popcount(votes & consider) > 6` (conclusive yes) nor
`popcount((~votes) & consider) > 6` (conclusive no) holds on the shifted
8-bit windows. -/
theorem C1_register_vote_round (vr : VoteRecord) (err : Nat)
    (hv : vr.votes < 256) (hc : vr.consider < 256) (hf : vr.confidence < 65536)
    (he : err < 4294967296) :
    (regsiterVote vr err).2.votes = (2 * vr.votes + (if err = 0 then 1 else 0)) % 256
    ∧ (regsiterVote vr err).2.consider
        = (2 * vr.consider + (if err < 2147483648 then 1 else 0)) % 256
    ∧ (((regsiterVote vr err).1 = false ∧ (regsiterVote vr err).2.confidence = vr.confidence)
        ↔ (popCount8 ((regsiterVote vr err).2.votes &&& (regsiterVote vr err).2.consider) ≤ 6
           ∧ popCount8 ((255 - (regsiterVote vr err).2.votes)
                &&& (regsiterVote vr err).2.consider) ≤ 6)) := by
  refine ⟨?_, ?_, ?_⟩
  · rw [regsiterVote_votes, shiftVotes_char _ _ he]
  · rw [regsiterVote_consider, shiftConsider_char _ _ he]
  · rw [regsiterVote_votes, regsiterVote_consider]
    by_cases hy : roundYes vr err = true
    · have hRHS : ¬(popCount8 (shiftVotes vr.votes err &&& shiftConsider vr.consider err) ≤ 6
          ∧ popCount8 ((255 - shiftVotes vr.votes err) &&& shiftConsider vr.consider err) ≤ 6) := by
        rw [roundYes_popCount] at hy
        simp only [decide_eq_true_eq] at hy
        intro hcontra
        omega
      by_cases ha : isAccepted vr = roundYes vr err
      · rw [regsiterVote_agree vr err (Or.inl hy) ha]
        refine iff_of_false ?_ hRHS
        intro hcontra
        have hconf := hcontra.2
        simp only at hconf
        omega
      · rw [regsiterVote_disagree vr err (Or.inl hy) ha]
        refine iff_of_false ?_ hRHS
        intro hcontra
        exact Bool.noConfusion hcontra.1
    · have hy' : roundYes vr err = false := by
        revert hy
        cases roundYes vr err <;> simp
      by_cases hn : roundNo vr err = true
      · have hRHS : ¬(popCount8 (shiftVotes vr.votes err &&& shiftConsider vr.consider err) ≤ 6
            ∧ popCount8 ((255 - shiftVotes vr.votes err) &&& shiftConsider vr.consider err) ≤ 6) := by
          rw [roundNo_popCount] at hn
          simp only [decide_eq_true_eq] at hn
          intro hcontra
          omega
        by_cases ha : isAccepted vr = roundYes vr err
        · rw [regsiterVote_agree vr err (Or.inr hn) ha]
          refine iff_of_false ?_ hRHS
          intro hcontra
          have hconf := hcontra.2
          simp only at hconf
          omega
        · rw [regsiterVote_disagree vr err (Or.inr hn) ha]
          refine iff_of_false ?_ hRHS
          intro hcontra
          exact Bool.noConfusion hcontra.1
      · have hn' : roundNo vr err = false := by
          revert hn
          cases roundNo vr err <;> simp
        rw [regsiterVote_inconclusive vr err hy' hn']
        refine iff_of_true ⟨rfl, rfl⟩ ⟨?_, ?_⟩
        · rw [roundYes_popCount] at hy'
          simp only [decide_eq_false_iff_not] at hy'
          omega
        · rw [roundNo_popCount] at hn'
          simp only [decide_eq_false_iff_not] at hn'
          omega

/-- C1 witness: the theorem instantiated at the fresh accepted record and
`err = 0`. -/
theorem C1_register_vote_round_witness :
    (regsiterVote (VoteRecord.mk 170 0 1) 0).2.votes
        = (2 * (VoteRecord.mk 170 0 1).votes + (if (0 : Nat) = 0 then 1 else 0)) % 256
    ∧ (regsiterVote (VoteRecord.mk 170 0 1) 0).2.consider
        = (2 * (VoteRecord.mk 170 0 1).consider + (if (0 : Nat) < 2147483648 then 1 else 0)) % 256
    ∧ (((regsiterVote (VoteRecord.mk 170 0 1) 0).1 = false
          ∧ (regsiterVote (VoteRecord.mk 170 0 1) 0).2.confidence
              = (VoteRecord.mk 170 0 1).confidence)
        ↔ (popCount8 ((regsiterVote (VoteRecord.mk 170 0 1) 0).2.votes
              &&& (regsiterVote (VoteRecord.mk 170 0 1) 0).2.consider) ≤ 6
           ∧ popCount8 ((255 - (regsiterVote (VoteRecord.mk 170 0 1) 0).2.votes)
              &&& (regsiterVote (VoteRecord.mk 170 0 1) 0).2.consider) ≤ 6)) :=
  C1_register_vote_round (VoteRecord.mk 170 0 1) 0
    (by decide) (by decide) (by decide) (by decide)

/-- C2 amended: from any `VoteRecord` state, a conclusive vote that agrees
with the current polarity advances the streak `confidence >> 1` by exactly
1 (incrementing `confidence` by 2) — provided the uint16 `confidence`
counter does not wrap (`confidence + 2 < 2^16`) — and the call returns
`true` exactly when the streak reaches
`AvalancheFinalizationScore = 128`, at which point `hasFinalized()`
holds.  (The unamended claim fails only on wraparound states, see the
counterexample.) -/
theorem C2_amended_agreeing_streak (vr : VoteRecord) (err : Nat)
    (hconc : roundYes vr err = true ∨ roundNo vr err = true)
    (hagree : isAccepted vr = roundYes vr err)
    (hof : vr.confidence + 2 < 65536) :
    (regsiterVote vr err).2.confidence = vr.confidence + 2
    ∧ getConfidence (regsiterVote vr err).2 = getConfidence vr + 1
    ∧ ((regsiterVote vr err).1 = true
        ↔ getConfidence (regsiterVote vr err).2 = AvalancheFinalizationScore)
    ∧ (getConfidence (regsiterVote vr err).2 = AvalancheFinalizationScore
        → hasFinalized (regsiterVote vr err).2 = true) := by
  rw [regsiterVote_agree vr err hconc hagree]
  have hmod : (vr.confidence + 2) % 65536 = vr.confidence + 2 := Nat.mod_eq_of_lt hof
  have hgc : getConfidence ⟨shiftVotes vr.votes err, shiftConsider vr.consider err,
      (vr.confidence + 2) % 65536⟩ = getConfidence vr + 1 := by
    simp only [getConfidence, Nat.shiftRight_eq_div_pow, pow_one, hmod]
    omega
  refine ⟨hmod, hgc, ?_, ?_⟩
  · rw [hgc]
    simp only [decide_eq_true_eq]
  · intro h
    have h' : getConfidence vr + 1 = AvalancheFinalizationScore := by
      rw [← hgc]
      exact h
    have hfin : hasFinalized ⟨shiftVotes vr.votes err, shiftConsider vr.consider err,
        (vr.confidence + 2) % 65536⟩ = true := by
      simp only [hasFinalized, decide_eq_true_eq, hgc]
      omega
    exact hfin

/-- C2 amended witness: the theorem instantiated at the state
`⟨0xFF, 0xFF, 1⟩` and the agreeing conclusive vote `err = 0`. -/
theorem C2_amended_agreeing_streak_witness :
    (regsiterVote (VoteRecord.mk 255 255 1) 0).2.confidence = (VoteRecord.mk 255 255 1).confidence + 2
    ∧ getConfidence (regsiterVote (VoteRecord.mk 255 255 1) 0).2
        = getConfidence (VoteRecord.mk 255 255 1) + 1
    ∧ ((regsiterVote (VoteRecord.mk 255 255 1) 0).1 = true
        ↔ getConfidence (regsiterVote (VoteRecord.mk 255 255 1) 0).2 = AvalancheFinalizationScore)
    ∧ (getConfidence (regsiterVote (VoteRecord.mk 255 255 1) 0).2 = AvalancheFinalizationScore
        → hasFinalized (regsiterVote (VoteRecord.mk 255 255 1) 0).2 = true) :=
  C2_amended_agreeing_streak (VoteRecord.mk 255 255 1) 0
    (Or.inl (by decide)) (by decide) (by decide)

/-- C6: from every `VoteRecord` state, a single conclusive vote whose
verdict disagrees with the current polarity returns `true` and sets
`confidence` to exactly 0 with the new polarity rejected, or exactly 1
with the new polarity accepted. -/
theorem C6_conclusive_disagreement_flips (vr : VoteRecord) (err : Nat)
    (hconc : roundYes vr err = true ∨ roundNo vr err = true)
    (hdis : isAccepted vr ≠ roundYes vr err) :
    (regsiterVote vr err).1 = true
    ∧ (((regsiterVote vr err).2.confidence = 0
          ∧ isAccepted (regsiterVote vr err).2 = false)
       ∨ ((regsiterVote vr err).2.confidence = 1
          ∧ isAccepted (regsiterVote vr err).2 = true)) := by
  rw [regsiterVote_disagree vr err hconc hdis]
  refine ⟨rfl, ?_⟩
  cases hy : roundYes vr err
  · exact Or.inl ⟨by simp [boolToUint16, boolToUint8], by simp [isAccepted, boolToUint16, boolToUint8]⟩
  · exact Or.inr ⟨by simp [boolToUint16, boolToUint8], by simp [isAccepted, boolToUint16, boolToUint8]⟩

/-- C6 witness: the theorem instantiated at the rejected-polarity state
`⟨0xFF, 0xFF, 0⟩` and the conclusive-yes vote `err = 0`. -/
theorem C6_conclusive_disagreement_flips_witness :
    (regsiterVote (VoteRecord.mk 255 255 0) 0).1 = true
    ∧ (((regsiterVote (VoteRecord.mk 255 255 0) 0).2.confidence = 0
          ∧ isAccepted (regsiterVote (VoteRecord.mk 255 255 0) 0).2 = false)
       ∨ ((regsiterVote (VoteRecord.mk 255 255 0) 0).2.confidence = 1
          ∧ isAccepted (regsiterVote (VoteRecord.mk 255 255 0) 0).2 = true)) :=
  C6_conclusive_disagreement_flips (VoteRecord.mk 255 255 0) 0
    (Or.inl (by decide)) (by decide)

/-- A round whose shifted `consider` window has at most six live bits is
necessarily inconclusive: both popcounts are bounded by the number of
considered bits. -/
lemma regsiterVote_low_consider (vr : VoteRecord) (err : Nat)
    (h : countBits8 (shiftConsider vr.consider err) ≤ 6) :
    regsiterVote vr err
      = (false, ⟨shiftVotes vr.votes err, shiftConsider vr.consider err, vr.confidence⟩) := by
  have hC := shiftConsider_lt vr.consider err
  have hy : roundYes vr err = false := by
    unfold roundYes
    rw [and255_self _ _ hC]
    simp only [decide_eq_false_iff_not]
    have hle := countBits8_and_le (shiftVotes vr.votes err) _ hC
    omega
  have hn : roundNo vr err = false := by
    unfold roundNo
    rw [and255_self _ _ hC]
    simp only [decide_eq_false_iff_not]
    have hle := countBits8_and_le (negSub1U8 (shiftVotes vr.votes err)) _ hC
    omega
  exact regsiterVote_inconclusive vr err hy hn

/-- As long as the total number of rounds keeps the popcount of the
`consider` window at or below six, every call is inconclusive and
`confidence` never moves. -/
lemma runVotes_all_inconclusive :
    ∀ (errs : List Nat) (vr : VoteRecord), vr.consider < 256 →
    countBits8 vr.consider + errs.length ≤ 6 →
    (runVotes vr errs).2.all (fun r => !r) = true
    ∧ (runVotes vr errs).1.confidence = vr.confidence := by
  intro errs
  induction errs with
  | nil => exact fun vr _ _ => ⟨rfl, rfl⟩
  | cons e rest ih =>
    intro vr hc hcnt
    have hC := shiftConsider_lt vr.consider e
    have hgrow := countBits8_shiftConsider_le vr.consider e hc
    have hlen : countBits8 vr.consider + (rest.length + 1) ≤ 6 := by
      simpa using hcnt
    have hstep := regsiterVote_low_consider vr e (by omega)
    obtain ⟨ha, hconf⟩ := ih ⟨shiftVotes vr.votes e, shiftConsider vr.consider e, vr.confidence⟩
      hC (by simp only []; omega)
    simp only [runVotes, hstep]
    exact ⟨by simpa using ha, hconf⟩

/-- C5 amended: from the initial `VoteRecord` state, no call among the
first SIX `regsiterVote` calls can produce a conclusive verdict — for
every sequence of fewer than seven votes from the initial state every
call returns `false` and `confidence` is unchanged.  (Seven rounds can
already be conclusive: the `consider` window starts empty and gains at
most one live bit per round, so six rounds bound both popcounts by six,
but a seventh all-conclusive round reaches count 7; see the
counterexample.) -/
theorem C5_amended_first_six_rounds_inert (accepted : Bool) (errs : List Nat)
    (h : errs.length < 7) :
    (runVotes (NewVoteRecord accepted) errs).2.all (fun r => !r) = true
    ∧ (runVotes (NewVoteRecord accepted) errs).1.confidence = boolToUint16 accepted := by
  have h6 : countBits8 (NewVoteRecord accepted).consider + errs.length ≤ 6 := by
    show 0 + errs.length ≤ 6
    omega
  exact runVotes_all_inconclusive errs (NewVoteRecord accepted) (by show 0 < 256; omega) h6

/-- C5 amended witness: the theorem instantiated at the accepted fresh
record and three conclusive-no votes. -/
theorem C5_amended_first_six_rounds_inert_witness :
    ([1, 1, 1] : List Nat).length < 7
    ∧ ((runVotes (NewVoteRecord true) [1, 1, 1]).2.all (fun r => !r) = true
       ∧ (runVotes (NewVoteRecord true) [1, 1, 1]).1.confidence = boolToUint16 true) :=
  ⟨by decide, C5_amended_first_six_rounds_inert true [1, 1, 1] (by decide)⟩

/-- One even-indexed alternating step: from votes window `0xAA` with a
`consider` window inside `0xAA`, the `err = 0` vote is inconclusive and
produces votes `0x55` with the shifted `consider` window inside `0x55`. -/
lemma alt_step_even : ∀ c < 256, c &&& 170 = c →
    regsiterVote (VoteRecord.mk 170 c 1) 0
        = (false, VoteRecord.mk 85 (((c <<< 1) ||| 1) % 256) 1)
    ∧ (((c <<< 1) ||| 1) % 256) &&& 85 = ((c <<< 1) ||| 1) % 256 := by
  decide

/-- One odd-indexed alternating step: from votes window `0x55` with a
`consider` window inside `0x55`, the `err = -1` vote is inconclusive and
produces votes `0xAA` with the shifted `consider` window inside `0xAA`. -/
lemma alt_step_odd : ∀ c < 256, c &&& 85 = c →
    regsiterVote (VoteRecord.mk 85 c 1) 4294967295
        = (false, VoteRecord.mk 170 (((c <<< 1) ||| 0) % 256) 1)
    ∧ (((c <<< 1) ||| 0) % 256) &&& 170 = ((c <<< 1) ||| 0) % 256 := by
  decide

/-- Invariant of the alternating run: confidence stays 1, the votes window
alternates between `0xAA` and `0x55` with the parity of the round, and the
`consider` window stays inside the votes window. -/
lemma altState_invariant (n : Nat) :
    (altState n).confidence = 1 ∧ (altState n).consider < 256
    ∧ ((n % 2 = 0 ∧ (altState n).votes = 170
          ∧ (altState n).consider &&& 170 = (altState n).consider)
       ∨ (n % 2 = 1 ∧ (altState n).votes = 85
          ∧ (altState n).consider &&& 85 = (altState n).consider)) := by
  induction n with
  | zero => exact ⟨rfl, by decide, Or.inl ⟨rfl, rfl, by decide⟩⟩
  | succ n ih =>
    obtain ⟨hconf, hclt, hcase⟩ := ih
    rcases hcase with ⟨hpar, hv, hsub⟩ | ⟨hpar, hv, hsub⟩
    · have herr : altErr n = 0 := by simp [altErr, hpar]
      have hrec : altState n = ⟨170, (altState n).consider, 1⟩ := by
        rw [← hv, ← hconf]
      have hstep := alt_step_even (altState n).consider hclt hsub
      have hS : altState (n + 1)
          = VoteRecord.mk 85 ((((altState n).consider <<< 1) ||| 1) % 256) 1 := by
        show (regsiterVote (altState n) (altErr n)).2 = _
        rw [herr]
        conv_lhs => rw [hrec]
        rw [hstep.1]
      refine ⟨by rw [hS], by rw [hS]; exact Nat.mod_lt _ (by omega),
        Or.inr ⟨by omega, by rw [hS], ?_⟩⟩
      rw [hS]
      exact hstep.2
    · have herr : altErr n = 4294967295 := by simp [altErr, hpar]
      have hrec : altState n = ⟨85, (altState n).consider, 1⟩ := by
        rw [← hv, ← hconf]
      have hstep := alt_step_odd (altState n).consider hclt hsub
      have hS : altState (n + 1)
          = VoteRecord.mk 170 ((((altState n).consider <<< 1) ||| 0) % 256) 1 := by
        show (regsiterVote (altState n) (altErr n)).2 = _
        rw [herr]
        conv_lhs => rw [hrec]
        rw [hstep.1]
      refine ⟨by rw [hS], by rw [hS]; exact Nat.mod_lt _ (by omega),
        Or.inl ⟨by omega, by rw [hS], ?_⟩⟩
      rw [hS]
      exact hstep.2

/-- C8: starting from `NewVoteRecord(true)`, along the alternating
`err = 0` / `err = -1` sequence of any length, the agree count
`popcount(votes & consider)` never exceeds 4, every call returns `false`,
and the confidence and status never change (`confidence = 1`,
`StatusAccepted`). -/
theorem C8_alternating_votes_inert (n : Nat) :
    (altState n).confidence = 1
    ∧ status (altState n) = Status.StatusAccepted
    ∧ countBits8 ((altState n).votes &&& (altState n).consider) ≤ 4
    ∧ (regsiterVote (altState n) (altErr n)).1 = false := by
  obtain ⟨hconf, hclt, hcase⟩ := altState_invariant n
  have hstatus : status (altState n) = Status.StatusAccepted := by
    have hrec : altState n = ⟨(altState n).votes, (altState n).consider, 1⟩ := by
      rw [← hconf]
    rw [hrec]
    simp [status, hasFinalized, isAccepted, getConfidence, AvalancheFinalizationScore,
      Nat.shiftRight_eq_div_pow]
  refine ⟨hconf, hstatus, ?_, ?_⟩
  · rcases hcase with ⟨_, hv, _⟩ | ⟨_, hv, _⟩
    · rw [hv, Nat.and_comm]
      have h1 := countBits8_and_le (altState n).consider 170 (by omega)
      have h2 : countBits8 170 = 4 := by decide
      omega
    · rw [hv, Nat.and_comm]
      have h1 := countBits8_and_le (altState n).consider 85 (by omega)
      have h2 : countBits8 85 = 4 := by decide
      omega
  · rcases hcase with ⟨hpar, hv, hsub⟩ | ⟨hpar, hv, hsub⟩
    · have herr : altErr n = 0 := by simp [altErr, hpar]
      have hrec : altState n = ⟨170, (altState n).consider, 1⟩ := by
        rw [← hv, ← hconf]
      rw [herr]
      conv_lhs => rw [hrec]
      rw [(alt_step_even (altState n).consider hclt hsub).1]
    · have herr : altErr n = 4294967295 := by simp [altErr, hpar]
      have hrec : altState n = ⟨85, (altState n).consider, 1⟩ := by
        rw [← hv, ← hconf]
      rw [herr]
      conv_lhs => rw [hrec]
      rw [(alt_step_odd (altState n).consider hclt hsub).1]

/-- C9 counterexample: on a fully-considered window the legacy and current
`regsiterVote` can disagree on the return value.  With equal confidence
257 (streak 128, accepted), equal low-8 vote bits 0xFF, current consider
mask 0xFF, and the conclusive vote `err = 0`, both update `confidence` to
259, but the legacy code returns `hasFinalized()` (`129 >= 128`, `true`)
while the current code returns `getConfidence() == 128` (`129 == 128`,
`false`). -/
theorem C9_cex_return_values_differ :
    (LegacyVoteRecord.mk 255 257).confidence = (VoteRecord.mk 255 255 257).confidence
    ∧ (LegacyVoteRecord.mk 255 257).votes % 256 = (VoteRecord.mk 255 255 257).votes
    ∧ (VoteRecord.mk 255 255 257).consider = 255
    ∧ (Legacy.regsiterVote (LegacyVoteRecord.mk 255 257) ((0 : Nat) == 0)).2.confidence
        = (regsiterVote (VoteRecord.mk 255 255 257) 0).2.confidence
    ∧ (Legacy.regsiterVote (LegacyVoteRecord.mk 255 257) ((0 : Nat) == 0)).1 = true
    ∧ (regsiterVote (VoteRecord.mk 255 255 257) 0).1 = false := by
  decide

/-- The legacy popcount loop is the same function as the current one. -/
lemma legacy_countBits_eq (x : Nat) : Legacy.countBits x = countBits8 x := rfl

lemma legacy_shiftVotes_char (x : Nat) (b : Bool) :
    Legacy.shiftVotes x b = (2 * x + boolToUint8 b) % 65536 := by
  unfold Legacy.shiftVotes boolToUint8
  cases b
  · simp only [Bool.false_eq_true, if_false]
    rw [shiftLeft_one_lor_bit x 0 (by omega)]
  · simp only [if_true]
    rw [shiftLeft_one_lor_bit x 1 (by omega)]

lemma shiftVotes_bit_char (v e : Nat) (he : e < 4294967296) :
    shiftVotes v e = (2 * v + boolToUint8 (e == 0)) % 256 := by
  have hb : boolToUint8 (e == 0) ≤ 1 := by
    unfold boolToUint8
    split <;> omega
  unfold shiftVotes
  rw [Nat.mod_eq_of_lt he, shiftLeft_one_lor_bit v _ hb]

/-- The inconclusive branch of the legacy `regsiterVote`. -/
lemma legacy_regsiterVote_inconclusive (lvr : LegacyVoteRecord) (vote : Bool)
    (h1 : decide (6 < Legacy.countBits (Legacy.shiftVotes lvr.votes vote &&& 255)) = false)
    (h2 : decide (Legacy.countBits (Legacy.shiftVotes lvr.votes vote &&& 255) < 2) = false) :
    Legacy.regsiterVote lvr vote = (false, ⟨Legacy.shiftVotes lvr.votes vote, lvr.confidence⟩) := by
  unfold Legacy.regsiterVote
  rw [h1, h2]
  simp

/-- The agreeing conclusive branch of the legacy `regsiterVote`. -/
lemma legacy_regsiterVote_agree (lvr : LegacyVoteRecord) (vote : Bool)
    (hconc : decide (6 < Legacy.countBits (Legacy.shiftVotes lvr.votes vote &&& 255)) = true
      ∨ decide (Legacy.countBits (Legacy.shiftVotes lvr.votes vote &&& 255) < 2) = true)
    (hagree : Legacy.isAccepted lvr
      = decide (6 < Legacy.countBits (Legacy.shiftVotes lvr.votes vote &&& 255))) :
    Legacy.regsiterVote lvr vote
      = (Legacy.hasFinalized ⟨Legacy.shiftVotes lvr.votes vote, (lvr.confidence + 2) % 65536⟩,
         ⟨Legacy.shiftVotes lvr.votes vote, (lvr.confidence + 2) % 65536⟩) := by
  have hc1 : (!(decide (6 < Legacy.countBits (Legacy.shiftVotes lvr.votes vote &&& 255)))
      && !(decide (Legacy.countBits (Legacy.shiftVotes lvr.votes vote &&& 255) < 2))) = false := by
    rcases hconc with h | h <;> simp [h]
  have hc2 : (Legacy.isAccepted lvr
      == decide (6 < Legacy.countBits (Legacy.shiftVotes lvr.votes vote &&& 255))) = true := by
    rw [hagree]
    exact beq_self_eq_true _
  unfold Legacy.regsiterVote
  rw [hc1, hc2]
  simp

/-- The disagreeing conclusive branch of the legacy `regsiterVote`. -/
lemma legacy_regsiterVote_disagree (lvr : LegacyVoteRecord) (vote : Bool)
    (hconc : decide (6 < Legacy.countBits (Legacy.shiftVotes lvr.votes vote &&& 255)) = true
      ∨ decide (Legacy.countBits (Legacy.shiftVotes lvr.votes vote &&& 255) < 2) = true)
    (hdis : Legacy.isAccepted lvr
      ≠ decide (6 < Legacy.countBits (Legacy.shiftVotes lvr.votes vote &&& 255))) :
    Legacy.regsiterVote lvr vote
      = (true, ⟨Legacy.shiftVotes lvr.votes vote,
          boolToUint16 (decide (6 < Legacy.countBits (Legacy.shiftVotes lvr.votes vote &&& 255)))⟩) := by
  have hc1 : (!(decide (6 < Legacy.countBits (Legacy.shiftVotes lvr.votes vote &&& 255)))
      && !(decide (Legacy.countBits (Legacy.shiftVotes lvr.votes vote &&& 255) < 2))) = false := by
    rcases hconc with h | h <;> simp [h]
  have hc2 : (Legacy.isAccepted lvr
      == decide (6 < Legacy.countBits (Legacy.shiftVotes lvr.votes vote &&& 255))) = false :=
    beq_eq_false_iff_ne.mpr hdis
  unfold Legacy.regsiterVote
  rw [hc1, hc2]
  simp

/-- C9 amended: on fully-considered windows (current `consider = 0xFF`),
for states with equal uint16 confidence and equal low-8 vote bits, the
legacy `regsiterVote(err == 0)` and the current `regsiterVote(err)` with a
conclusive (non-negative) `err` always produce the same resulting
`confidence`; they return the same value whenever the record has not
already finalized (`getConfidence < 128` — past finalization the legacy
`>=` test and the current `==` test differ, see the counterexample); and
the legacy conclusive-no test `popcount(votes & 0xff) < 2` coincides with
the current test `popcount((-votes - 1) & consider) > 6`. -/
theorem C9_amended_legacy_refinement (lvr : LegacyVoteRecord) (vr : VoteRecord) (err : Nat)
    (hlv : lvr.votes < 65536) (hv : vr.votes < 256) (hcons : vr.consider = 255)
    (hcf : lvr.confidence = vr.confidence) (hc16 : vr.confidence < 65536)
    (hlow : lvr.votes % 256 = vr.votes) (he : err < 4294967296) (hnn : err < 2147483648) :
    (Legacy.regsiterVote lvr (err == 0)).2.confidence = (regsiterVote vr err).2.confidence
    ∧ (getConfidence vr < 128
        → (Legacy.regsiterVote lvr (err == 0)).1 = (regsiterVote vr err).1)
    ∧ (Legacy.countBits (Legacy.shiftVotes lvr.votes (err == 0) &&& 255) < 2
        ↔ roundNo vr err = true) := by
  have hWlt : shiftVotes vr.votes err < 256 := shiftVotes_lt vr.votes err
  have hcnt8 := countBits8_le_eight _ hWlt
  have hconsider : shiftConsider vr.consider err = 255 := by
    rw [hcons, shiftConsider_char 255 err he, if_pos hnn]
  have hW255 : shiftVotes vr.votes err &&& 255 = shiftVotes vr.votes err := by
    rw [and_255_eq_mod]
    exact Nat.mod_eq_of_lt hWlt
  have hVeq : Legacy.shiftVotes lvr.votes (err == 0) &&& 255 = shiftVotes vr.votes err := by
    rw [legacy_shiftVotes_char, shiftVotes_bit_char vr.votes err he, and_255_eq_mod,
      Nat.mod_mod_of_dvd _ (by norm_num), ← hlow]
    omega
  have hyesur : roundYes vr err = decide (6 < countBits8 (shiftVotes vr.votes err)) := by
    unfold roundYes
    rw [hconsider, hW255, hW255]
  have hnocur : roundNo vr err = decide (countBits8 (shiftVotes vr.votes err) < 2) := by
    unfold roundNo
    rw [hconsider, negSub1U8_eq _ hWlt]
    have h255 : (255 - shiftVotes vr.votes err) &&& 255 = 255 - shiftVotes vr.votes err := by
      rw [and_255_eq_mod]
      exact Nat.mod_eq_of_lt (by omega)
    rw [h255, h255, countBits8_compl _ hWlt, decide_eq_decide]
    omega
  have hyes_leg : decide (6 < Legacy.countBits (Legacy.shiftVotes lvr.votes (err == 0) &&& 255))
      = roundYes vr err := by
    rw [legacy_countBits_eq, hVeq]
    exact hyesur.symm
  have hno_leg : decide (Legacy.countBits (Legacy.shiftVotes lvr.votes (err == 0) &&& 255) < 2)
      = roundNo vr err := by
    rw [legacy_countBits_eq, hVeq]
    exact hnocur.symm
  have hacc : Legacy.isAccepted lvr = isAccepted vr := by
    unfold Legacy.isAccepted isAccepted
    rw [hcf]
  have hiff3 : Legacy.countBits (Legacy.shiftVotes lvr.votes (err == 0) &&& 255) < 2
      ↔ roundNo vr err = true := by
    rw [legacy_countBits_eq, hVeq, hnocur]
    simp
  cases hy : roundYes vr err with
  | false =>
    cases hn : roundNo vr err with
    | false =>
      rw [regsiterVote_inconclusive vr err hy hn,
        legacy_regsiterVote_inconclusive lvr (err == 0) (by rw [hyes_leg, hy]) (by rw [hno_leg, hn])]
      exact ⟨hcf, fun _ => rfl, by rw [hn] at hiff3; exact hiff3⟩
    | true =>
      by_cases hA : isAccepted vr = roundYes vr err
      · rw [regsiterVote_agree vr err (Or.inr hn) hA,
          legacy_regsiterVote_agree lvr (err == 0) (Or.inr (by rw [hno_leg, hn]))
            (by rw [hacc, hA]; exact hyes_leg.symm)]
        refine ⟨by rw [hcf], ?_, by rw [hn] at hiff3; exact hiff3⟩
        intro hnf
        have hc255 : vr.confidence < 256 := by
          simp only [getConfidence, Nat.shiftRight_eq_div_pow, pow_one] at hnf
          omega
        have hmod : (vr.confidence + 2) % 65536 = vr.confidence + 2 :=
          Nat.mod_eq_of_lt (by omega)
        show Legacy.hasFinalized ⟨Legacy.shiftVotes lvr.votes (err == 0),
            (lvr.confidence + 2) % 65536⟩ = _
        unfold Legacy.hasFinalized Legacy.getConfidence getConfidence AvalancheFinalizationScore
        rw [hcf, hmod]
        simp only [Nat.shiftRight_eq_div_pow, pow_one]
        rw [decide_eq_decide]
        omega
      · rw [regsiterVote_disagree vr err (Or.inr hn) hA,
          legacy_regsiterVote_disagree lvr (err == 0) (Or.inr (by rw [hno_leg, hn]))
            (by rw [hacc, hyes_leg]; exact hA)]
        refine ⟨?_, fun _ => rfl, by rw [hn] at hiff3; exact hiff3⟩
        show boolToUint16 (decide (6 < Legacy.countBits (Legacy.shiftVotes lvr.votes (err == 0) &&& 255)))
            = boolToUint16 (roundYes vr err)
        rw [hyes_leg]
  | true =>
    by_cases hA : isAccepted vr = roundYes vr err
    · rw [regsiterVote_agree vr err (Or.inl hy) hA,
        legacy_regsiterVote_agree lvr (err == 0) (Or.inl (by rw [hyes_leg, hy]))
          (by rw [hacc, hA]; exact hyes_leg.symm)]
      refine ⟨by rw [hcf], ?_, hiff3⟩
      intro hnf
      have hc255 : vr.confidence < 256 := by
        simp only [getConfidence, Nat.shiftRight_eq_div_pow, pow_one] at hnf
        omega
      have hmod : (vr.confidence + 2) % 65536 = vr.confidence + 2 :=
        Nat.mod_eq_of_lt (by omega)
      show Legacy.hasFinalized ⟨Legacy.shiftVotes lvr.votes (err == 0),
          (lvr.confidence + 2) % 65536⟩ = _
      unfold Legacy.hasFinalized Legacy.getConfidence getConfidence AvalancheFinalizationScore
      rw [hcf, hmod]
      simp only [Nat.shiftRight_eq_div_pow, pow_one]
      rw [decide_eq_decide]
      omega
    · rw [regsiterVote_disagree vr err (Or.inl hy) hA,
        legacy_regsiterVote_disagree lvr (err == 0) (Or.inl (by rw [hyes_leg, hy]))
          (by rw [hacc, hyes_leg]; exact hA)]
      refine ⟨?_, fun _ => rfl, hiff3⟩
      show boolToUint16 (decide (6 < Legacy.countBits (Legacy.shiftVotes lvr.votes (err == 0) &&& 255)))
          = boolToUint16 (roundYes vr err)
      rw [hyes_leg]

/-- C9 amended witness: the theorem instantiated at the legacy state
`⟨votes = 0x00FF, confidence = 3⟩` against the current state
`⟨0xFF, 0xFF, 3⟩` with the conclusive vote `err = 0`. -/
theorem C9_amended_legacy_refinement_witness :
    ((Legacy.regsiterVote (LegacyVoteRecord.mk 255 3) ((0 : Nat) == 0)).2.confidence
        = (regsiterVote (VoteRecord.mk 255 255 3) 0).2.confidence)
    ∧ (getConfidence (VoteRecord.mk 255 255 3) < 128
        → (Legacy.regsiterVote (LegacyVoteRecord.mk 255 3) ((0 : Nat) == 0)).1
            = (regsiterVote (VoteRecord.mk 255 255 3) 0).1)
    ∧ (Legacy.countBits (Legacy.shiftVotes (LegacyVoteRecord.mk 255 3).votes ((0 : Nat) == 0) &&& 255) < 2
        ↔ roundNo (VoteRecord.mk 255 255 3) 0 = true) :=
  C9_amended_legacy_refinement (LegacyVoteRecord.mk 255 3) (VoteRecord.mk 255 255 3) 0
    (by decide) (by decide) (by decide) (by decide) (by decide) (by decide) (by decide) (by decide)

end Avalanche
